import Mathlib

/-!
Verification development for the clinic dashboard repository.

The definitions below are a shallow embedding of the data pipeline in
`src/data_loader.py` (the `load_data` normalizer and the appointment CRUD
helpers) and of the filter chain in `src/sidebar.py` (`render_sidebar`).

Modelling conventions:
* A pandas timestamp is a `DateTime`: `day` is the calendar day (`dt.date`,
  encoded as an integer day number) and `hour` is `dt.hour`.
* A numeric cell is `Option Rat`: `none` stands for a missing (NaN) or
  unparseable value, which `pd.to_numeric(errors=coerce).fillna(0)` turns
  into 0, so reading a numeric cell is `Option.getD 0`.  A string cell is
  `Option String` with `none` for a missing value.
* A raw table carries the list of column names actually present
  (`RawTable.cols`); accessing a column that is absent raises an uncaught
  `KeyError` in pandas, which the embedding models by `load_data`
  returning `none`.
* The calendar display columns (`month`, `month_name`, `month_year`, `day`,
  `day_of_week`, `week`) are pure renderings of `date` that no claim
  touches; the embedding records their names for the column-presence
  check but does not compute their values.
* The synthesized `visit_duration_mins` column
  (`np.random.randint(15, 60)` under the fixed seed 42) is modelled by the
  deterministic `simDuration`, which like the source is a fixed function of
  the row position with values in `[15, 60)`; no claim depends on the
  concrete pseudo-random stream.
-/

/-- A pandas timestamp: calendar day number (`dt.date`) and hour of day
(`dt.hour`). -/
structure DateTime where
  day : Int
  hour : Int
  deriving DecidableEq, Inhabited

/-- One raw spreadsheet row: the parsed `date` cell (`none` when
`pd.to_datetime(errors=coerce)` fails), the numeric view of the other
cells, and the string view of the categorical cells. -/
structure RawRow where
  date : Option DateTime
  num : String → Option Rat
  str : String → Option String

/-- A raw table: the column names present in the sheet, and its rows. -/
structure RawTable where
  cols : List String
  rows : List RawRow

/-- The fixed list of monetary columns ensured by `load_data`
(data_loader.py lines 40-42).  Note that `cash pay` and `visa pay` are not
in this list. -/
def commission_cols : List String :=
  ["doctor comission payed", "com to be payed", "T.doc.com", "com pay", "gross income"]

/-- Value of an ensured monetary column after data_loader.py lines 43-48:
an absent column is synthesized as 0; a present one is coerced to numeric
with missing/unparseable cells becoming 0. -/
def numv (t : RawTable) (r : RawRow) (c : String) : Rat :=
  if c ∈ t.cols then (r.num c).getD 0 else 0

/-- The profit-margin formula of data_loader.py lines 69-73:
`np.where(gross income > 0, profit / gross income * 100, 0)`. -/
def marginOf (gi p : Rat) : Rat :=
  if gi > 0 then p / gi * 100 else 0

/-- The payment-method classification of data_loader.py lines 87-88:
`np.where(cash pay > 0, Cash, np.where(visa pay > 0, Visa, Other))`. -/
def paymentMethodOf (cash visa : Rat) : String :=
  if cash > 0 then "Cash" else if visa > 0 then "Visa" else "Other"

/-- Stand-in for the synthesized visit duration (data_loader.py lines
114-116): a deterministic function of the row position with values in
`[15, 60)`, abstracting the fixed-seed `np.random.randint(15, 60)` stream. -/
def simDuration (j : Nat) : Rat :=
  ((15 + j % 45 : Nat) : Rat)

/-- One normalized row as produced by `load_data`.  `total_deductions` is
`Option Rat` because the source creates that column only when the raw
input has no `profit` column (data_loader.py lines 60-65); `none` records
its absence from the output. -/
structure NormRow where
  date : DateTime
  hour : Int
  commission_paid_daily : Rat
  commission_paid_monthly : Rat
  total_commission : Rat
  advertising_commission : Rat
  gross_income : Rat
  total_deductions : Option Rat
  profit : Rat
  profit_margin_pct : Rat
  cash_pay : Rat
  visa_pay : Rat
  payment_method : String
  visit_type : String
  doctor : String
  patient : String
  id : String
  visit_duration_mins : Rat
  deriving DecidableEq, Inhabited

/-- Per-row derivation performed by `load_data` (data_loader.py lines
50-116) for a row whose date parsed to `d`.  `i` is the row's original
index (used when synthesizing `id`), `j` its position after the
invalid-date rows were dropped (the position in the synthesized duration
array). -/
def deriveRow (t : RawTable) (i j : Nat) (r : RawRow) (d : DateTime) : NormRow :=
  { date := d
    hour := d.hour
    commission_paid_daily := numv t r "doctor comission payed"
    commission_paid_monthly := numv t r "com to be payed"
    total_commission := numv t r "T.doc.com"
    advertising_commission := numv t r "com pay"
    gross_income := numv t r "gross income"
    total_deductions :=
      if "profit" ∈ t.cols then none
      else some (numv t r "T.doc.com" + numv t r "com pay")
    profit :=
      if "profit" ∈ t.cols then (r.num "profit").getD 0
      else numv t r "gross income" - (numv t r "T.doc.com" + numv t r "com pay")
    profit_margin_pct :=
      marginOf (numv t r "gross income")
        (if "profit" ∈ t.cols then (r.num "profit").getD 0
         else numv t r "gross income" - (numv t r "T.doc.com" + numv t r "com pay"))
    cash_pay := (r.num "cash pay").getD 0
    visa_pay := (r.num "visa pay").getD 0
    payment_method := paymentMethodOf ((r.num "cash pay").getD 0) ((r.num "visa pay").getD 0)
    visit_type := if "visit type" ∈ t.cols then (r.str "visit type").getD "Unknown" else "Unknown"
    doctor := if "Doctor" ∈ t.cols then (r.str "Doctor").getD "Unknown" else "Unknown"
    patient := if "Patient" ∈ t.cols then (r.str "Patient").getD "Unknown" else "Unknown"
    id := if "id" ∈ t.cols then (r.str "id").getD "nan" else toString i
    visit_duration_mins :=
      if "visit_duration_mins" ∈ t.cols then (r.num "visit_duration_mins").getD 0
      else simDuration j }

/-- Row-wise pass of `load_data`: rows whose date failed to parse are
dropped (data_loader.py line 32); `i` tracks the original index, `j` the
post-drop position. -/
def deriveRows (t : RawTable) : Nat → Nat → List RawRow → List NormRow
  | _, _, [] => []
  | i, j, r :: rs =>
    match r.date with
    | none => deriveRows t (i + 1) j rs
    | some d => deriveRow t i j r d :: deriveRows t (i + 1) (j + 1) rs

/-- The `load_data` normalizer (data_loader.py lines 29-137).  The result
is `none` when the function raises an uncaught `KeyError`: the `date`
column is accessed unconditionally at line 31, and `cash pay` / `visa pay`
are accessed unconditionally at line 87 without having been ensured by the
`commission_cols` loop. -/
def load_data (t : RawTable) : Option (List NormRow) :=
  if "date" ∈ t.cols then
    if "cash pay" ∈ t.cols ∧ "visa pay" ∈ t.cols then
      some (deriveRows t 0 0 t.rows)
    else none
  else none

lemma mem_deriveRows {t : RawTable} {nr : NormRow} :
    ∀ {i j : Nat} {l : List RawRow}, nr ∈ deriveRows t i j l →
      ∃ i' j' r d, r ∈ l ∧ r.date = some d ∧ nr = deriveRow t i' j' r d := by
  intro i j l
  induction l generalizing i j with
  | nil => intro h; simp [deriveRows] at h
  | cons r rs ih =>
    intro h
    rw [deriveRows] at h
    cases hd : r.date with
    | none =>
      rw [hd] at h
      obtain ⟨i', j', r', d', hm, hdd, he⟩ := ih h
      exact ⟨i', j', r', d', List.mem_cons_of_mem _ hm, hdd, he⟩
    | some d =>
      rw [hd] at h
      rcases List.mem_cons.mp h with he | h2
      · exact ⟨i, j, r, d, List.mem_cons_self _ _, hd, he⟩
      · obtain ⟨i', j', r', d', hm, hdd, he⟩ := ih h2
        exact ⟨i', j', r', d', List.mem_cons_of_mem _ hm, hdd, he⟩

lemma mem_load_data {t : RawTable} {rows : List NormRow} {nr : NormRow}
    (h : load_data t = some rows) (hm : nr ∈ rows) :
    ∃ i j r d, r ∈ t.rows ∧ r.date = some d ∧ nr = deriveRow t i j r d := by
  rw [load_data] at h
  split at h
  · split at h
    · cases h
      exact mem_deriveRows hm
    · cases h
  · cases h

lemma marginOf_spec (gi p : Rat) :
    (gi ≤ 0 → marginOf gi p = 0) ∧ (0 < gi → marginOf gi p = p / gi * 100) := by
  constructor
  · intro h
    simp [marginOf, not_lt.mpr h]
  · intro h
    simp [marginOf, h]

lemma paymentMethodOf_spec (c v : Rat) :
    (paymentMethodOf c v = "Cash" ∨ paymentMethodOf c v = "Visa" ∨
      paymentMethodOf c v = "Other") ∧
    (0 < c → paymentMethodOf c v = "Cash") ∧
    (¬ 0 < c → 0 < v → paymentMethodOf c v = "Visa") ∧
    (¬ 0 < c → ¬ 0 < v → paymentMethodOf c v = "Other") := by
  unfold paymentMethodOf
  by_cases hc : c > 0
  · simp [hc]
  · by_cases hv : v > 0 <;> simp [hc, hv]

/-- Claim C1: in every table returned by `load_data`, each row's
`profit_margin_pct` is exactly 0 when its `gross_income` is ≤ 0, and
equals `profit / gross_income * 100` when `gross_income` is > 0. -/
theorem C1_profit_margin (t : RawTable) (rows : List NormRow) (nr : NormRow)
    (h : load_data t = some rows) (hm : nr ∈ rows) :
    (nr.gross_income ≤ 0 → nr.profit_margin_pct = 0) ∧
    (0 < nr.gross_income →
      nr.profit_margin_pct = nr.profit / nr.gross_income * 100) := by
  obtain ⟨i, j, r, d, -, -, rfl⟩ := mem_load_data h hm
  exact marginOf_spec _ _

/-- Claim C2: in every table returned by `load_data`, each row's
`payment_method` is one of Cash/Visa/Other; it is Cash whenever the
cash-pay amount is > 0 regardless of the visa-pay amount, otherwise Visa
whenever the visa-pay amount is > 0, otherwise Other. -/
theorem C2_payment_method (t : RawTable) (rows : List NormRow) (nr : NormRow)
    (h : load_data t = some rows) (hm : nr ∈ rows) :
    (nr.payment_method = "Cash" ∨ nr.payment_method = "Visa" ∨
      nr.payment_method = "Other") ∧
    (0 < nr.cash_pay → nr.payment_method = "Cash") ∧
    (¬ 0 < nr.cash_pay → 0 < nr.visa_pay → nr.payment_method = "Visa") ∧
    (¬ 0 < nr.cash_pay → ¬ 0 < nr.visa_pay → nr.payment_method = "Other") := by
  obtain ⟨i, j, r, d, -, -, rfl⟩ := mem_load_data h hm
  exact paymentMethodOf_spec _ _

/-- Concrete raw row matching the spec's worked example: gross income 1000,
cash pay 1000, visa pay 0, T.doc.com 200, com pay 50, valid date. -/
def exRow : RawRow :=
  { date := some ⟨19727, 10⟩
    num := fun c =>
      if c = "gross income" then some 1000
      else if c = "cash pay" then some 1000
      else if c = "visa pay" then some 0
      else if c = "T.doc.com" then some 200
      else if c = "com pay" then some 50
      else if c = "profit" then some 999
      else none
    str := fun c =>
      if c = "Doctor" then some "Dr A"
      else if c = "Patient" then some "P1"
      else if c = "visit type" then some "regular"
      else if c = "id" then some "1"
      else none }

/-- Concrete raw table for the spec's worked example (no `profit` column). -/
def exT : RawTable :=
  { cols := ["date", "gross income", "cash pay", "visa pay", "T.doc.com", "com pay",
             "Doctor", "Patient", "visit type", "id"]
    rows := [exRow] }

/-- The normalized table `load_data` produces for `exT`. -/
def exNorm : List NormRow := (load_data exT).getD []

/-- Witness for C1: the example table loads, its row is in the result, and
the margin property holds there (75% for profit 750 on income 1000). -/
theorem C1_witness :
    load_data exT = some exNorm ∧ exNorm.headI ∈ exNorm ∧
    exNorm.headI.profit_margin_pct = 75 ∧
    ((exNorm.headI.gross_income ≤ 0 → exNorm.headI.profit_margin_pct = 0) ∧
     (0 < exNorm.headI.gross_income →
       exNorm.headI.profit_margin_pct =
         exNorm.headI.profit / exNorm.headI.gross_income * 100)) :=
  ⟨rfl,
   by simp [exNorm, load_data, exT, deriveRows, exRow],
   by
     simp [exNorm, load_data, exT, deriveRows, exRow, deriveRow, numv, marginOf]
     norm_num,
   C1_profit_margin exT exNorm exNorm.headI rfl
     (by simp [exNorm, load_data, exT, deriveRows, exRow])⟩

/-- Witness for C2: on the example table the cash amount is 1000 > 0 and
the derived payment method is Cash. -/
theorem C2_witness :
    load_data exT = some exNorm ∧ exNorm.headI ∈ exNorm ∧
    0 < exNorm.headI.cash_pay ∧ exNorm.headI.payment_method = "Cash" :=
  ⟨rfl,
   by simp [exNorm, load_data, exT, deriveRows, exRow],
   by simp [exNorm, load_data, exT, deriveRows, exRow, deriveRow],
   (C2_payment_method exT exNorm exNorm.headI rfl
       (by simp [exNorm, load_data, exT, deriveRows, exRow])).2.1
     (by simp [exNorm, load_data, exT, deriveRows, exRow, deriveRow])⟩

lemma load_data_eq {t : RawTable} {rows : List NormRow} (h : load_data t = some rows) :
    "date" ∈ t.cols ∧ ("cash pay" ∈ t.cols ∧ "visa pay" ∈ t.cols) ∧
      rows = deriveRows t 0 0 t.rows := by
  by_cases h1 : "date" ∈ t.cols
  · by_cases h2 : "cash pay" ∈ t.cols ∧ "visa pay" ∈ t.cols
    · refine ⟨h1, h2, ?_⟩
      rw [load_data, if_pos h1, if_pos h2] at h
      injection h with h
      exact h.symm
    · rw [load_data, if_pos h1, if_neg h2] at h
      cases h
  · rw [load_data, if_neg h1] at h
    cases h

/-- Claim C3 (amended): when the raw input has no `profit` column, every
row of the normalized table has `total_deductions` equal to its total
doctor commission plus its advertising commission, and `profit` equal to
gross income minus that sum.  (When a `profit` column is present the
`total_deductions` column is not created at all — see the
counterexample.) -/
theorem C3_total_deductions (t : RawTable) (rows : List NormRow) (nr : NormRow)
    (h : load_data t = some rows) (hp : "profit" ∉ t.cols) (hm : nr ∈ rows) :
    nr.total_deductions = some (nr.total_commission + nr.advertising_commission) ∧
    nr.profit = nr.gross_income - (nr.total_commission + nr.advertising_commission) := by
  obtain ⟨i, j, r, d, -, -, rfl⟩ := mem_load_data h hm
  constructor
  · simp [deriveRow, hp]
  · simp [deriveRow, hp]

/-- Counterexample for C3 as stated: the raw table `exTP` (the example row
plus a `profit` column) is accepted by the loader, yet its normalized row
has no `total_deductions` field (modelled as `none`), so not every
accepted input yields rows whose `total_deductions` equals the commission
sum. -/
def exTP : RawTable :=
  { cols := ["date", "gross income", "cash pay", "visa pay", "T.doc.com", "com pay",
             "Doctor", "Patient", "visit type", "id", "profit"]
    rows := [exRow] }

theorem C3_counterexample :
    (load_data exTP).isSome = true ∧
    ((load_data exTP).getD []).map (fun nr => nr.total_deductions) = [none] := by
  constructor
  · rfl
  · simp [load_data, exTP, deriveRows, exRow, deriveRow]

/-- Witness for C3 (amended): on the spec's example row the derived values
are payment_method Cash, total_deductions 250, profit 750 and margin 75. -/
theorem C3_witness :
    exNorm.headI.payment_method = "Cash" ∧
    exNorm.headI.total_deductions = some 250 ∧
    exNorm.headI.profit = 750 ∧
    exNorm.headI.profit_margin_pct = 75 ∧
    (exNorm.headI.total_deductions =
        some (exNorm.headI.total_commission + exNorm.headI.advertising_commission) ∧
      exNorm.headI.profit =
        exNorm.headI.gross_income -
          (exNorm.headI.total_commission + exNorm.headI.advertising_commission)) :=
  ⟨by simp [exNorm, load_data, exT, deriveRows, exRow, deriveRow, paymentMethodOf],
   by
     simp [exNorm, load_data, exT, deriveRows, exRow, deriveRow, numv]
     norm_num,
   by
     simp [exNorm, load_data, exT, deriveRows, exRow, deriveRow, numv]
     norm_num,
   by
     simp [exNorm, load_data, exT, deriveRows, exRow, deriveRow, numv, marginOf]
     norm_num,
   C3_total_deductions exT exNorm exNorm.headI rfl (by decide)
     (by simp [exNorm, load_data, exT, deriveRows, exRow])⟩

lemma deriveRows_profit_col (t : RawTable) (hp : "profit" ∈ t.cols) :
    ∀ (i j : Nat) (l : List RawRow),
      (deriveRows t i j l).map (fun nr => nr.profit)
        = l.filterMap (fun r => r.date.map (fun _ => (r.num "profit").getD 0)) := by
  intro i j l
  induction l generalizing i j with
  | nil => simp [deriveRows]
  | cons r rs ih =>
    rw [deriveRows]
    cases hd : r.date with
    | none => simp [hd, ih]
    | some d => simp [hd, ih, deriveRow, hp]

/-- Claim C4: when a `profit` column exists in the raw input, the output
profit column is exactly the source profit cells coerced to numeric with
missing/unparseable entries as 0 (one per row with a valid date, not
recomputed from commissions), and `profit_margin_pct` is always recomputed
from that profit figure. -/
theorem C4_profit_passthrough (t : RawTable) (rows : List NormRow)
    (h : load_data t = some rows) (hp : "profit" ∈ t.cols) :
    rows.map (fun nr => nr.profit)
      = t.rows.filterMap (fun r => r.date.map (fun _ => (r.num "profit").getD 0)) ∧
    ∀ nr ∈ rows, nr.profit_margin_pct
      = if 0 < nr.gross_income then nr.profit / nr.gross_income * 100 else 0 := by
  obtain ⟨-, -, hrows⟩ := load_data_eq h
  constructor
  · rw [hrows]
    exact deriveRows_profit_col t hp 0 0 t.rows
  · intro nr hm
    obtain ⟨i, j, r, d, -, -, rfl⟩ := mem_load_data h hm
    rfl

/-- Witness for C4: on `exTP` the source `profit` cell 999 (which
disagrees with gross − deductions = 750) is passed through, and the margin
is recomputed from it (99.9%). -/
theorem C4_witness :
    (((load_data exTP).getD []).map (fun nr => nr.profit)
        = exTP.rows.filterMap (fun r => r.date.map (fun _ => (r.num "profit").getD 0)) ∧
      ∀ nr ∈ (load_data exTP).getD [], nr.profit_margin_pct
        = if 0 < nr.gross_income then nr.profit / nr.gross_income * 100 else 0) ∧
    ((load_data exTP).getD []).map (fun nr => nr.profit) = [999] ∧
    ((load_data exTP).getD []).map (fun nr => nr.profit_margin_pct) = [999/10] :=
  ⟨C4_profit_passthrough exTP ((load_data exTP).getD []) rfl (by decide),
   by simp [load_data, exTP, deriveRows, exRow, deriveRow, numv],
   by
     simp [load_data, exTP, deriveRows, exRow, deriveRow, numv, marginOf]
     norm_num⟩

/-- Claim C5 (amended): for each of the five monetary columns in the fixed
`commission_cols` list, absence from the source is non-fatal — the loader
still returns a normalized table and the corresponding derived values are
the substituted 0.  The guarantee does not extend to `cash pay` and
`visa pay`, which are not in that list: their absence makes `load_data`
fail (see the counterexample). -/
theorem C5_commission_defaults (t : RawTable)
    (hd : "date" ∈ t.cols) (hc : "cash pay" ∈ t.cols) (hv : "visa pay" ∈ t.cols) :
    (load_data t).isSome = true ∧
    ∀ nr ∈ (load_data t).getD [],
      ("gross income" ∉ t.cols → nr.gross_income = 0) ∧
      ("T.doc.com" ∉ t.cols → nr.total_commission = 0) ∧
      ("com pay" ∉ t.cols → nr.advertising_commission = 0) ∧
      ("doctor comission payed" ∉ t.cols → nr.commission_paid_daily = 0) ∧
      ("com to be payed" ∉ t.cols → nr.commission_paid_monthly = 0) := by
  have hl : load_data t = some (deriveRows t 0 0 t.rows) := by
    rw [load_data, if_pos hd, if_pos ⟨hc, hv⟩]
  constructor
  · rw [hl]
    rfl
  · intro nr hm
    rw [hl, Option.getD_some] at hm
    obtain ⟨i, j, r, d, -, -, rfl⟩ := mem_deriveRows hm
    refine ⟨?_, ?_, ?_, ?_, ?_⟩ <;> intro hne <;> simp [deriveRow, numv, hne]

/-- Counterexample for C5 as stated: a raw table with every column of the
example except `cash pay` (a payment-amount column the claim covers) makes
`load_data` fail with an uncaught KeyError instead of substituting 0. -/
def exTnc : RawTable :=
  { cols := ["date", "gross income", "visa pay", "T.doc.com", "com pay",
             "Doctor", "Patient", "visit type", "id"]
    rows := [exRow] }

theorem C5_counterexample : load_data exTnc = none := by
  simp [load_data, exTnc]

/-- Raw table missing the optional monetary column `gross income` (but
with the three columns whose absence is fatal). -/
def exTng : RawTable :=
  { cols := ["date", "cash pay", "visa pay"]
    rows := [exRow] }

/-- Witness for C5 (amended): with `gross income` absent the loader still
succeeds and the row's gross income is the substituted 0. -/
theorem C5_witness :
    (load_data exTng).isSome = true ∧
    ((load_data exTng).getD []).headI.gross_income = 0 :=
  ⟨(C5_commission_defaults exTng (by decide) (by decide) (by decide)).1,
   ((C5_commission_defaults exTng (by decide) (by decide) (by decide)).2
       ((load_data exTng).getD []).headI
       (by simp [load_data, exTng, deriveRows, exRow])).1 (by decide)⟩

/-- The column names present in the data frame when it reaches the final
essential-column check (data_loader.py lines 118-130): the raw columns
plus everything the preprocessing steps added unconditionally; the
`total_deductions`/`profit` pair is added only when the raw input had no
`profit` column (lines 60-65). -/
def derivedCols (t : RawTable) : List String :=
  t.cols ++ commission_cols ++
    ["commission_paid_daily", "commission_paid_monthly", "total_commission",
      "advertising_commission"] ++
    (if "profit" ∈ t.cols then [] else ["total_deductions", "profit"]) ++
    ["profit_margin_pct", "month", "month_name", "month_year", "day", "day_of_week",
      "week", "hour", "payment_method", "visit type", "Doctor", "Patient",
      "visit_duration_mins"]

/-- The essential-column list of data_loader.py line 120. -/
def essential_cols : List String :=
  ["date", "gross income", "profit", "Doctor", "Patient", "visit type", "id"]

/-- The fatal `st.error`/`st.stop` branch of the final check
(data_loader.py lines 128-130) fires for column `c` exactly when `c` is
essential, absent after preprocessing, and is neither `id` (which is
synthesized instead) nor `profit` (which is skipped). -/
def fatalFires (t : RawTable) (c : String) : Prop :=
  c ∈ essential_cols ∧ c ∉ derivedCols t ∧ c ≠ "id" ∧ c ≠ "profit"

/-- Claim C10: for every raw input on which `load_data` reaches the final
essential-column check, every essential column other than `id` is already
present, so the fatal error-and-stop branch can never execute — the only
fallback that can fire there is synthesizing a missing `id`. -/
theorem C10_essential_check (t : RawTable) (h : (load_data t).isSome = true) :
    (∀ c ∈ essential_cols, c ≠ "id" → c ∈ derivedCols t) ∧
    (∀ c, ¬ fatalFires t c) := by
  have hd : "date" ∈ t.cols := by
    by_contra hnd
    rw [load_data, if_neg hnd] at h
    simp at h
  have hmem : ∀ c ∈ essential_cols, c ≠ "id" → c ∈ derivedCols t := by
    intro c hc hne
    have hc' : c = "date" ∨ c = "gross income" ∨ c = "profit" ∨ c = "Doctor" ∨
        c = "Patient" ∨ c = "visit type" ∨ c = "id" := by
      simpa [essential_cols] using hc
    rcases hc' with rfl | rfl | rfl | rfl | rfl | rfl | rfl
    · simp [derivedCols, hd]
    · simp [derivedCols, commission_cols]
    · by_cases hp : "profit" ∈ t.cols <;> simp [derivedCols, hp]
    · simp [derivedCols]
    · simp [derivedCols]
    · simp [derivedCols]
    · exact absurd rfl hne
  refine ⟨hmem, ?_⟩
  rintro c ⟨hc, hnotin, hni, -⟩
  exact hnotin (hmem c hc hni)

/-- Witness for C10: the example table loads, `gross income` is present at
check time, and the fatal branch does not fire for it. -/
theorem C10_witness :
    (load_data exT).isSome = true ∧
    "gross income" ∈ derivedCols exT ∧ ¬ fatalFires exT "gross income" :=
  ⟨rfl,
   (C10_essential_check exT rfl).1 "gross income" (by decide) (by decide),
   (C10_essential_check exT rfl).2 "gross income"⟩

/-- Minimum calendar day in the `date` column
(`df_data["date"].min().date()`, sidebar.py line 33). -/
def minDay : List NormRow → Int
  | [] => 0
  | r :: rs => rs.foldl (fun a x => min a x.date.day) r.date.day

/-- Maximum calendar day in the `date` column
(`df_data["date"].max().date()`, sidebar.py line 34). -/
def maxDay : List NormRow → Int
  | [] => 0
  | r :: rs => rs.foldl (fun a x => max a x.date.day) r.date.day

lemma foldl_min_le_init (rs : List NormRow) :
    ∀ a : Int, rs.foldl (fun a x => min a x.date.day) a ≤ a := by
  induction rs with
  | nil => intro a; simp
  | cons x xs ih =>
    intro a
    calc (x :: xs).foldl (fun a x => min a x.date.day) a
        = xs.foldl (fun a x => min a x.date.day) (min a x.date.day) := rfl
      _ ≤ min a x.date.day := ih _
      _ ≤ a := min_le_left _ _

lemma le_foldl_max_init (rs : List NormRow) :
    ∀ a : Int, a ≤ rs.foldl (fun a x => max a x.date.day) a := by
  induction rs with
  | nil => intro a; simp
  | cons x xs ih =>
    intro a
    calc a ≤ max a x.date.day := le_max_left _ _
      _ ≤ xs.foldl (fun a x => max a x.date.day) (max a x.date.day) := ih _
      _ = (x :: xs).foldl (fun a x => max a x.date.day) a := rfl

lemma foldl_min_le_mem {rs : List NormRow} {x : NormRow} (hx : x ∈ rs) :
    ∀ a : Int, rs.foldl (fun a x => min a x.date.day) a ≤ x.date.day := by
  induction rs with
  | nil => cases hx
  | cons y ys ih =>
    intro a
    rcases List.mem_cons.mp hx with rfl | hx'
    · calc (x :: ys).foldl (fun a z => min a z.date.day) a
          = ys.foldl (fun a z => min a z.date.day) (min a x.date.day) := rfl
        _ ≤ min a x.date.day := foldl_min_le_init _ _
        _ ≤ x.date.day := min_le_right _ _
    · exact ih hx' _

lemma le_foldl_max_mem {rs : List NormRow} {x : NormRow} (hx : x ∈ rs) :
    ∀ a : Int, x.date.day ≤ rs.foldl (fun a x => max a x.date.day) a := by
  induction rs with
  | nil => cases hx
  | cons y ys ih =>
    intro a
    rcases List.mem_cons.mp hx with rfl | hx'
    · calc x.date.day ≤ max a x.date.day := le_max_right _ _
        _ ≤ ys.foldl (fun a z => max a z.date.day) (max a x.date.day) := le_foldl_max_init _ _
        _ = (x :: ys).foldl (fun a z => max a z.date.day) a := rfl
    · exact ih hx' _

lemma minDay_le_mem {rows : List NormRow} {r : NormRow} (hr : r ∈ rows) :
    minDay rows ≤ r.date.day := by
  cases rows with
  | nil => cases hr
  | cons y ys =>
    rcases List.mem_cons.mp hr with rfl | hr'
    · calc minDay (r :: ys) = ys.foldl (fun a x => min a x.date.day) r.date.day := rfl
        _ ≤ r.date.day := foldl_min_le_init _ _
    · exact foldl_min_le_mem hr' _

lemma mem_le_maxDay {rows : List NormRow} {r : NormRow} (hr : r ∈ rows) :
    r.date.day ≤ maxDay rows := by
  cases rows with
  | nil => cases hr
  | cons y ys =>
    rcases List.mem_cons.mp hr with rfl | hr'
    · exact le_foldl_max_init _ _
    · exact le_foldl_max_mem hr' _

lemma minDay_le_maxDay {rows : List NormRow} (hne : rows ≠ []) :
    minDay rows ≤ maxDay rows := by
  cases rows with
  | nil => exact absurd rfl hne
  | cons y ys =>
    exact le_trans (minDay_le_mem (List.mem_cons_self _ _))
      (mem_le_maxDay (List.mem_cons_self _ _))

/-- Start date chosen by the quick-select preset (sidebar.py lines 36-59).
`customStart` is the date-input value used only by the Custom branch;
`jan1` is the day number of January 1 of the maximum date's year, used
only by Year to Date. -/
def presetStartDate (preset : String) (minD maxD jan1 customStart : Int) : Int :=
  if preset = "Custom" then customStart
  else if preset = "Last 7 Days" then max (maxD - 6) minD
  else if preset = "Last 30 Days" then max (maxD - 29) minD
  else if preset = "Last 90 Days" then max (maxD - 89) minD
  else if preset = "Year to Date" then max jan1 minD
  else minD

/-- End date chosen by the quick-select preset (sidebar.py lines 45, 49). -/
def presetEndDate (preset : String) (maxD customEnd : Int) : Int :=
  if preset = "Custom" then customEnd else maxD

/-- The start-after-end clamp of sidebar.py lines 62-63: if start > end,
start becomes end. -/
def clampStart (s e : Int) : Int :=
  if s > e then e else s

/-- The inclusive date-range filter of sidebar.py lines 65-66. -/
def dateFilter (rows : List NormRow) (s e : Int) : List NormRow :=
  rows.filter fun r => decide (s ≤ r.date.day) && decide (r.date.day ≤ e)

/-- Claim C6: for a non-empty table, the Last 7 Days preset yields start
`max (maxDay − 6) minDay` and end `maxDay`, the clamp leaves that start
unchanged, and filtering selects exactly the rows of the 7 calendar days
ending at the maximum observed date; and for any preset-computed pair, if
start exceeds end the clamp sets start to end (and otherwise leaves it). -/
theorem C6_last7_preset (rows : List NormRow) (hne : rows ≠ []) (jan1 cs ce : Int) :
    presetStartDate "Last 7 Days" (minDay rows) (maxDay rows) jan1 cs
        = max (maxDay rows - 6) (minDay rows) ∧
    clampStart (presetStartDate "Last 7 Days" (minDay rows) (maxDay rows) jan1 cs)
        (presetEndDate "Last 7 Days" (maxDay rows) ce)
      = max (maxDay rows - 6) (minDay rows) ∧
    dateFilter rows
        (clampStart (presetStartDate "Last 7 Days" (minDay rows) (maxDay rows) jan1 cs)
          (presetEndDate "Last 7 Days" (maxDay rows) ce))
        (presetEndDate "Last 7 Days" (maxDay rows) ce)
      = rows.filter (fun r =>
          decide (maxDay rows - 6 ≤ r.date.day) && decide (r.date.day ≤ maxDay rows)) ∧
    (∀ s e : Int, e < s → clampStart s e = e) ∧
    (∀ s e : Int, ¬ e < s → clampStart s e = s) := by
  have hs : presetStartDate "Last 7 Days" (minDay rows) (maxDay rows) jan1 cs
      = max (maxDay rows - 6) (minDay rows) := rfl
  have he : presetEndDate "Last 7 Days" (maxDay rows) ce = maxDay rows := rfl
  have hle : max (maxDay rows - 6) (minDay rows) ≤ maxDay rows :=
    max_le (by omega) (minDay_le_maxDay hne)
  have hcl : clampStart (max (maxDay rows - 6) (minDay rows)) (maxDay rows)
      = max (maxDay rows - 6) (minDay rows) := by
    unfold clampStart
    rw [if_neg (not_lt.mpr hle)]
  refine ⟨hs, by rw [hs, he, hcl], ?_, ?_, ?_⟩
  · rw [hs, he, hcl]
    unfold dateFilter
    apply List.filter_congr
    intro r hr
    have hmin : minDay rows ≤ r.date.day := minDay_le_mem hr
    have hiff : max (maxDay rows - 6) (minDay rows) ≤ r.date.day ↔
        maxDay rows - 6 ≤ r.date.day :=
      ⟨fun h => (max_le_iff.mp h).1, fun h => max_le_iff.mpr ⟨h, hmin⟩⟩
    rw [decide_eq_decide.mpr hiff]
  · intro s e h
    unfold clampStart
    rw [if_pos h]
  · intro s e h
    unfold clampStart
    rw [if_neg h]

/-- Witness for C6: a concrete two-row table on which the Last 7 Days
window and the clamp identities evaluate as the theorem states. -/
def exNR (dy hr : Int) (doc vt pm : String) (gi dur : Rat) : NormRow :=
  { date := ⟨dy, hr⟩
    hour := hr
    commission_paid_daily := 0
    commission_paid_monthly := 0
    total_commission := 0
    advertising_commission := 0
    gross_income := gi
    total_deductions := some 0
    profit := gi
    profit_margin_pct := if gi > 0 then 100 else 0
    cash_pay := if pm = "Cash" then gi else 0
    visa_pay := if pm = "Visa" then gi else 0
    payment_method := pm
    visit_type := vt
    doctor := doc
    patient := "P"
    id := "0"
    visit_duration_mins := dur }

def exDf : List NormRow :=
  [exNR 100 9 "Dr A" "regular" "Cash" 1000 30,
   exNR 110 14 "Dr B" "special" "Visa" 500 45,
   exNR 107 20 "Dr A" "emergency" "Other" 200 20]

theorem C6_witness :
    ([] : List NormRow) ≠ exDf ∧
    dateFilter exDf
        (clampStart (presetStartDate "Last 7 Days" (minDay exDf) (maxDay exDf) 0 0)
          (presetEndDate "Last 7 Days" (maxDay exDf) 0))
        (presetEndDate "Last 7 Days" (maxDay exDf) 0)
      = exDf.filter (fun r =>
          decide (maxDay exDf - 6 ≤ r.date.day) && decide (r.date.day ≤ maxDay exDf)) :=
  ⟨by decide,
   (C6_last7_preset exDf (by decide) 0 0 0).2.2.1⟩

def listPrefixOf : List Char → List Char → Bool
  | [], _ => true
  | _ :: _, [] => false
  | a :: as, b :: bs => a == b && listPrefixOf as bs

def listInfixOf (n : List Char) : List Char → Bool
  | [] => n.isEmpty
  | h :: hs => listPrefixOf n (h :: hs) || listInfixOf n hs

/-- The case-insensitive substring test of sidebar.py line 73:
`doctor_search.lower() in d.lower()`. -/
def containsCI (needle hay : String) : Bool :=
  listInfixOf (needle.toList.map Char.toLower) (hay.toList.map Char.toLower)

lemma listInfixOf_nil_left : ∀ l : List Char, listInfixOf [] l = true := by
  intro l
  induction l with
  | nil => rfl
  | cons h hs ih => simp [listInfixOf, listPrefixOf]

lemma containsCI_empty (d : String) : containsCI "" d = true := by
  unfold containsCI
  exact listInfixOf_nil_left _

/-- The searchable doctor list of sidebar.py lines 72-73: the distinct
doctors of the original unfiltered table narrowed by the case-insensitive
search (the source also sorts them, which does not affect membership). -/
def availableDoctors (df : List NormRow) (search : String) : List String :=
  ((df.map (fun r => r.doctor)).dedup).filter (fun d => containsCI search d)

/-- Applying a selected-doctor set (sidebar.py lines 88-91): a non-empty
selection keeps the rows whose doctor is selected; an empty selection
returns the empty data frame (`iloc[0:0]`). -/
def applySelectedDoctors (filtered : List NormRow) (sel : List String) : List NormRow :=
  if sel.isEmpty then [] else filtered.filter (fun r => decide (r.doctor ∈ sel))

/-- The whole doctor-filter step of sidebar.py lines 69-91: with All
Doctors checked (or an empty search result) the selection is the full
search-narrowed list, otherwise the multiselect value. -/
def doctorStep (df filtered : List NormRow) (search : String)
    (allDoctors : Bool) (multisel : List String) : List NormRow :=
  applySelectedDoctors filtered
    (if allDoctors || (availableDoctors df search).isEmpty then availableDoctors df search
     else multisel)

/-- Claim C7: an empty selected-doctor set yields zero rows, and the All
Doctors selection (with an empty search string) yields exactly the rows of
the incoming (date-filtered) frame, i.e. the same as applying no doctor
filter. -/
theorem C7_doctor_filter (df filtered : List NormRow)
    (hsub : ∀ r ∈ filtered, r ∈ df) (multisel : List String) :
    applySelectedDoctors filtered [] = [] ∧
    doctorStep df filtered "" true multisel = filtered := by
  refine ⟨rfl, ?_⟩
  unfold doctorStep
  rw [Bool.true_or, if_pos rfl]
  have havail : availableDoctors df "" = (df.map (fun r => r.doctor)).dedup := by
    unfold availableDoctors
    apply List.filter_eq_self.mpr
    intro d hd
    exact containsCI_empty d
  rw [havail]
  unfold applySelectedDoctors
  by_cases hnil : (df.map (fun r => r.doctor)).dedup = []
  · rw [hnil]
    have hdf : df = [] := by
      have h1 : df.map (fun r => r.doctor) = [] := by
        simpa using hnil
      simpa using h1
    have hf : filtered = [] := by
      apply List.eq_nil_iff_forall_not_mem.mpr
      intro x hx
      have := hsub x hx
      rw [hdf] at this
      cases this
    simp [hf]
  · rw [if_neg (by simpa [List.isEmpty_iff] using hnil)]
    apply List.filter_eq_self.mpr
    intro r hr
    have : r.doctor ∈ (df.map (fun x => x.doctor)).dedup :=
      List.mem_dedup.mpr (List.mem_map.mpr ⟨r, hsub r hr, rfl⟩)
    simpa using this

/-- Witness for C7 at a concrete frame: All Doctors with empty search is
the identity, and the empty selection empties the frame. -/
theorem C7_witness :
    applySelectedDoctors exDf [] = [] ∧
    doctorStep exDf exDf "" true [] = exDf :=
  ⟨(C7_doctor_filter exDf exDf (fun _ h => h) []).1,
   (C7_doctor_filter exDf exDf (fun _ h => h) []).2⟩

/-- A fixed set of sidebar selections: the date range after preset
computation and clamping, the three categorical selections, and the three
always-active range sliders (sidebar.py lines 65-226). -/
structure FilterCriteria where
  startDate : Int
  endDate : Int
  doctors : List String
  visitTypes : List String
  payMethods : List String
  minIncome : Rat
  maxIncome : Rat
  minDuration : Rat
  maxDuration : Rat
  minHour : Int
  maxHour : Int

/-- Date-range predicate (sidebar.py lines 65-66). -/
def datePred (c : FilterCriteria) (r : NormRow) : Bool :=
  decide (c.startDate ≤ r.date.day) && decide (r.date.day ≤ c.endDate)

/-- Doctor-membership predicate (sidebar.py line 89). -/
def doctorPred (c : FilterCriteria) (r : NormRow) : Bool :=
  decide (r.doctor ∈ c.doctors)

/-- Visit-type-membership predicate (sidebar.py line 133). -/
def visitPred (c : FilterCriteria) (r : NormRow) : Bool :=
  decide (r.visit_type ∈ c.visitTypes)

/-- Payment-method-membership predicate (sidebar.py line 169). -/
def payPred (c : FilterCriteria) (r : NormRow) : Bool :=
  decide (r.payment_method ∈ c.payMethods)

/-- Gross-income range predicate (sidebar.py lines 194-195). -/
def incomePred (c : FilterCriteria) (r : NormRow) : Bool :=
  decide (c.minIncome ≤ r.gross_income) && decide (r.gross_income ≤ c.maxIncome)

/-- Visit-duration range predicate (sidebar.py lines 213-214). -/
def durationPred (c : FilterCriteria) (r : NormRow) : Bool :=
  decide (c.minDuration ≤ r.visit_duration_mins) &&
    decide (r.visit_duration_mins ≤ c.maxDuration)

/-- Hour-of-day range predicate (sidebar.py lines 225-226). -/
def hourPred (c : FilterCriteria) (r : NormRow) : Bool :=
  decide (c.minHour ≤ r.hour) && decide (r.hour ≤ c.maxHour)

/-- The sequential filter chain of `render_sidebar` for fixed selections
(sidebar.py lines 65-226): date range first, then the three categorical
selections — each emptying the frame outright when the selection is empty
(`iloc[0:0]`) — then the three range sliders. -/
def renderSidebarFilter (df : List NormRow) (c : FilterCriteria) : List NormRow :=
  let f1 := df.filter (datePred c)
  let f2 := if c.doctors.isEmpty then [] else f1.filter (doctorPred c)
  let f3 := if c.visitTypes.isEmpty then [] else f2.filter (visitPred c)
  let f4 := if c.payMethods.isEmpty then [] else f3.filter (payPred c)
  let f5 := f4.filter (incomePred c)
  let f6 := f5.filter (durationPred c)
  f6.filter (hourPred c)

/-- The chain's seven predicates in source order. -/
def filterPreds (c : FilterCriteria) : List (NormRow → Bool) :=
  [datePred c, doctorPred c, visitPred c, payPred c, incomePred c, durationPred c,
   hourPred c]

/-- Sequential narrowing by a list of predicates. -/
def seqFilter (df : List NormRow) (ps : List (NormRow → Bool)) : List NormRow :=
  ps.foldl (fun l p => l.filter p) df

/-- The conjunction of all seven predicates, evaluated once per row. -/
def conjPred (c : FilterCriteria) (r : NormRow) : Bool :=
  (filterPreds c).all (fun p => p r)

lemma doctor_branch (c : FilterCriteria) (l : List NormRow) :
    (if c.doctors.isEmpty then [] else l.filter (doctorPred c))
      = l.filter (doctorPred c) := by
  cases h : c.doctors with
  | nil => simp [doctorPred, h]
  | cons a as => simp [h]

lemma visit_branch (c : FilterCriteria) (l : List NormRow) :
    (if c.visitTypes.isEmpty then [] else l.filter (visitPred c))
      = l.filter (visitPred c) := by
  cases h : c.visitTypes with
  | nil => simp [visitPred, h]
  | cons a as => simp [h]

lemma pay_branch (c : FilterCriteria) (l : List NormRow) :
    (if c.payMethods.isEmpty then [] else l.filter (payPred c))
      = l.filter (payPred c) := by
  cases h : c.payMethods with
  | nil => simp [payPred, h]
  | cons a as => simp [h]

lemma seqFilter_eq_filter_all (ps : List (NormRow → Bool)) :
    ∀ df : List NormRow, seqFilter df ps = df.filter (fun r => ps.all (fun p => p r)) := by
  induction ps with
  | nil =>
    intro df
    simp [seqFilter]
  | cons p ps ih =>
    intro df
    have h1 : seqFilter df (p :: ps) = seqFilter (df.filter p) ps := rfl
    rw [h1, ih, List.filter_filter]
    apply List.filter_congr
    intro r hr
    simp [Bool.and_comm]

lemma seqFilter_nil_df (ps : List (NormRow → Bool)) : seqFilter [] ps = [] := by
  induction ps with
  | nil => rfl
  | cons p ps ih =>
    have h1 : seqFilter ([] : List NormRow) (p :: ps) = seqFilter [] ps := rfl
    rw [h1, ih]

lemma perm_all_eq {l l' : List (NormRow → Bool)} (h : l.Perm l') (r : NormRow) :
    l.all (fun p => p r) = l'.all (fun p => p r) := by
  rw [Bool.eq_iff_iff]
  simp only [List.all_eq_true]
  constructor
  · intro ha p hp
    exact ha p (h.mem_iff.mpr hp)
  · intro ha p hp
    exact ha p (h.mem_iff.mp hp)

/-- Claim C8: the sequential sidebar chain equals the single filter by the
conjunction of all seven predicates; any permutation of the steps gives
the same result; and once a prefix of the chain has emptied the frame the
final result is empty. -/
theorem C8_filter_conjunction (df : List NormRow) (c : FilterCriteria) :
    renderSidebarFilter df c = df.filter (conjPred c) ∧
    (∀ ps, (filterPreds c).Perm ps → seqFilter df ps = df.filter (conjPred c)) ∧
    (∀ k, seqFilter df ((filterPreds c).take k) = [] → renderSidebarFilter df c = []) := by
  have hchain : renderSidebarFilter df c = seqFilter df (filterPreds c) := by
    unfold renderSidebarFilter
    dsimp only
    rw [doctor_branch, visit_branch, pay_branch]
    rfl
  have hall : seqFilter df (filterPreds c) = df.filter (conjPred c) :=
    seqFilter_eq_filter_all (filterPreds c) df
  refine ⟨hchain.trans hall, ?_, ?_⟩
  · intro ps hperm
    rw [seqFilter_eq_filter_all]
    apply List.filter_congr
    intro r hr
    exact (perm_all_eq hperm r).symm
  · intro k hk
    rw [hchain]
    have hsplit : filterPreds c = (filterPreds c).take k ++ (filterPreds c).drop k :=
      (List.take_append_drop _ _).symm
    rw [hsplit]
    unfold seqFilter
    rw [List.foldl_append]
    have hk' : ((filterPreds c).take k).foldl (fun l p => l.filter p) df = [] := hk
    rw [hk']
    exact seqFilter_nil_df _

/-- Concrete criteria for the C8 witness. -/
def exC : FilterCriteria :=
  { startDate := 100
    endDate := 110
    doctors := ["Dr A"]
    visitTypes := ["regular", "emergency"]
    payMethods := ["Cash", "Other"]
    minIncome := 100
    maxIncome := 5000
    minDuration := 10
    maxDuration := 60
    minHour := 0
    maxHour := 23 }

/-- Witness for C8: at a concrete frame and criteria the chain equals the
conjunction filter, and running the seven steps in reverse order gives the
same answer. -/
theorem C8_witness :
    renderSidebarFilter exDf exC = exDf.filter (conjPred exC) ∧
    seqFilter exDf (filterPreds exC).reverse = exDf.filter (conjPred exC) :=
  ⟨(C8_filter_conjunction exDf exC).1,
   (C8_filter_conjunction exDf exC).2.1 (filterPreds exC).reverse
     (List.reverse_perm _).symm⟩

/-- One row of the `appointments` table (data_loader.py lines 154-171).
Every column is stored as TEXT and is modelled as `Option String` with
`none` for SQL NULL. -/
structure Appointment where
  appointmentID : Option String
  patientName : Option String
  doctorName : Option String
  appointmentDateTime : Option String
  appointmentType : Option String
  appointmentStatus : Option String
  bookingDateTime : Option String
  cancellationDateTime : Option String
  confirmationStatus : Option String
  reminderType : Option String
  bookingChannel : Option String
  referralSource : Option String
  patientArrivalTime : Option String
  appointmentStartTime : Option String
  appointmentEndTime : Option String
  deriving DecidableEq

/-- `add_appointment` (data_loader.py lines 204-239): the inserted row has
status `Scheduled` and no `CancellationDateTime` (the INSERT omits that
column, leaving NULL).  `aid` stands for the generated uuid; the datetime
arguments stand for their ISO-string serializations. -/
def add_appointment (aid patient_name doctor_name appointment_dt : String)
    (appointment_type booking_dt confirmation_status reminder_type
      booking_channel referral_source arrival_time start_time end_time :
      Option String) : Appointment :=
  { appointmentID := some aid
    patientName := some patient_name
    doctorName := some doctor_name
    appointmentDateTime := some appointment_dt
    appointmentType := appointment_type
    appointmentStatus := some "Scheduled"
    bookingDateTime := booking_dt
    cancellationDateTime := none
    confirmationStatus := confirmation_status
    reminderType := reminder_type
    bookingChannel := booking_channel
    referralSource := referral_source
    patientArrivalTime := arrival_time
    appointmentStartTime := start_time
    appointmentEndTime := end_time }

/-- The `updates` dict passed to `update_appointment`: column name to new
value (`none` = set to NULL). -/
abbrev Updates := List (String × Option String)

def hasKey (u : Updates) (k : String) : Bool :=
  u.any (fun kv => kv.1 == k)

def getVal (u : Updates) (k : String) : Option (Option String) :=
  (u.find? (fun kv => kv.1 == k)).map (fun kv => kv.2)

/-- `updates[k] = v` on a dict: overwrite the key if present, else add it. -/
def setKey (u : Updates) (k : String) (v : Option String) : Updates :=
  if hasKey u k then u.map (fun kv => if kv.1 == k then (k, v) else kv)
  else u ++ [(k, v)]

/-- The updatable columns of data_loader.py lines 320-325. -/
def valid_columns : List String :=
  ["PatientName", "DoctorName", "AppointmentDateTime", "AppointmentType",
   "AppointmentStatus", "BookingDateTime", "CancellationDateTime",
   "ConfirmationStatus", "ReminderType", "BookingChannel", "ReferralSource",
   "PatientArrivalTime", "AppointmentStartTime", "AppointmentEndTime"]

/-- Effect of one `SET k = v` clause on the matched row. -/
def setField (a : Appointment) (k : String) (v : Option String) : Appointment :=
  if k = "PatientName" then { a with patientName := v }
  else if k = "DoctorName" then { a with doctorName := v }
  else if k = "AppointmentDateTime" then { a with appointmentDateTime := v }
  else if k = "AppointmentType" then { a with appointmentType := v }
  else if k = "AppointmentStatus" then { a with appointmentStatus := v }
  else if k = "BookingDateTime" then { a with bookingDateTime := v }
  else if k = "CancellationDateTime" then { a with cancellationDateTime := v }
  else if k = "ConfirmationStatus" then { a with confirmationStatus := v }
  else if k = "ReminderType" then { a with reminderType := v }
  else if k = "BookingChannel" then { a with bookingChannel := v }
  else if k = "ReferralSource" then { a with referralSource := v }
  else if k = "PatientArrivalTime" then { a with patientArrivalTime := v }
  else if k = "AppointmentStartTime" then { a with appointmentStartTime := v }
  else if k = "AppointmentEndTime" then { a with appointmentEndTime := v }
  else a

/-- `update_appointment` (data_loader.py lines 289-346) applied to the
matched record.  `now` is `datetime.now().isoformat()`.  Setting status to
Cancelled with no explicit cancellation time stamps `now`; setting any
other status clears the cancellation time to NULL.  Only `valid_columns`
keys become SET clauses; with none, the function returns False without
updating. -/
def update_appointment (a : Appointment) (updates0 : Updates) (now : String) :
    Bool × Appointment :=
  let updates1 :=
    if getVal updates0 "AppointmentStatus" = some (some "Cancelled") ∧
        hasKey updates0 "CancellationDateTime" = false then
      setKey updates0 "CancellationDateTime" (some now)
    else if hasKey updates0 "AppointmentStatus" = true ∧
        getVal updates0 "AppointmentStatus" ≠ some (some "Cancelled") then
      setKey updates0 "CancellationDateTime" none
    else updates0
  let applied := updates1.filter (fun kv => decide (kv.1 ∈ valid_columns))
  if applied.isEmpty then (false, a)
  else (true, applied.foldl (fun acc kv => setField acc kv.1 kv.2) a)

/-- Claim C9: an appointment created by `add_appointment` starts Scheduled
with a NULL cancellation timestamp; updating it to Cancelled (with no
explicit timestamp in the updates) succeeds and leaves a non-null
`CancellationDateTime`; updating it again to Confirmed succeeds and clears
the timestamp back to NULL. -/
theorem C9_cancellation_roundtrip (aid pn dn adt now1 now2 : String)
    (atype booking conf rem chan refsrc arr stt ent : Option String) :
    (add_appointment aid pn dn adt atype booking conf rem chan refsrc arr stt
        ent).appointmentStatus = some "Scheduled" ∧
    (add_appointment aid pn dn adt atype booking conf rem chan refsrc arr stt
        ent).cancellationDateTime = none ∧
    (update_appointment
        (add_appointment aid pn dn adt atype booking conf rem chan refsrc arr stt ent)
        [("AppointmentStatus", some "Cancelled")] now1).1 = true ∧
    (update_appointment
        (add_appointment aid pn dn adt atype booking conf rem chan refsrc arr stt ent)
        [("AppointmentStatus", some "Cancelled")] now1).2.cancellationDateTime
      = some now1 ∧
    ((update_appointment
        (add_appointment aid pn dn adt atype booking conf rem chan refsrc arr stt ent)
        [("AppointmentStatus", some "Cancelled")] now1).2.cancellationDateTime).isSome
      = true ∧
    (update_appointment
        (add_appointment aid pn dn adt atype booking conf rem chan refsrc arr stt ent)
        [("AppointmentStatus", some "Cancelled")] now1).2.appointmentStatus
      = some "Cancelled" ∧
    (update_appointment
        (update_appointment
          (add_appointment aid pn dn adt atype booking conf rem chan refsrc arr stt ent)
          [("AppointmentStatus", some "Cancelled")] now1).2
        [("AppointmentStatus", some "Confirmed")] now2).1 = true ∧
    (update_appointment
        (update_appointment
          (add_appointment aid pn dn adt atype booking conf rem chan refsrc arr stt ent)
          [("AppointmentStatus", some "Cancelled")] now1).2
        [("AppointmentStatus", some "Confirmed")] now2).2.appointmentStatus
      = some "Confirmed" ∧
    (update_appointment
        (update_appointment
          (add_appointment aid pn dn adt atype booking conf rem chan refsrc arr stt ent)
          [("AppointmentStatus", some "Cancelled")] now1).2
        [("AppointmentStatus", some "Confirmed")] now2).2.cancellationDateTime
      = none := by
  refine ⟨rfl, rfl, rfl, rfl, rfl, rfl, rfl, rfl, rfl⟩
